import Mathlib

/-!
Shallow embedding of `src/chainlit/llama_index/callbacks.py`
(`LlamaIndexCallbackHandler`), the llama-index → chainlit event bridge.

The handler's observable behaviour is modelled as a pure function from the
handler state and the call's arguments to the new handler state together with
a trace of effects, where an effect is either installing the captured session
context into the ambient context slot (`context_var.set(self.context)`) or
sending a chainlit `Message` (`run_sync(Message(...).send())`).
-/

namespace Chainlit

/-- Model of `llama_index.callbacks.schema.CBEventType`: the event kinds the
handler compares against (`RETRIEVE`, `LLM`), the six kinds in
`DEFAULT_IGNORE`, and further kinds of the enum standing for "any other". -/
inductive CBEventType where
  | chunking
  | node_parsing
  | embedding
  | llm
  | query
  | retrieve
  | synthesize
  | tree
  | sub_question
  | templating
  | function_call
  | reranking
  deriving DecidableEq, Repr

/-- A llama-index node: the handler only reads `node.get_text()`. -/
structure Node where
  text : String
  deriving DecidableEq, Repr, Inhabited

/-- `Node.get_text()` of llama-index. -/
def Node.get_text (n : Node) : String := n.text

/-- One retrieved record (`NodeWithScore`): the handler reads `source.node`. -/
structure NodeWithScore where
  node : Node
  deriving DecidableEq, Repr, Inhabited

/-- A chat message inside an LLM response; the handler reads `.content`. -/
structure ChatMessage where
  content : String
  deriving DecidableEq, Repr

/-- `llama_index.llms.base.ChatResponse`: the handler reads `.message.content`. -/
structure ChatResponse where
  message : ChatMessage
  deriving DecidableEq, Repr

/-- The pre-existing chainlit message at the root of the chat; the handler
only reads its `.id`. -/
structure RootMessage where
  id : String
  deriving DecidableEq, Repr

/-- The chainlit session as seen by the handler: `session.root_message`. -/
structure Session where
  root_message : Option RootMessage
  deriving DecidableEq, Repr

/-- The chainlit context captured by `context_var.get()` at construction. -/
structure SessionContext where
  session : Session
  deriving DecidableEq, Repr

/-- Shallow model of the end-event payload dict: only the three keys actually
read by the handler (`EventPayload.NODES`, `EventPayload.RESPONSE`,
`EventPayload.PROMPT`); `none` models an absent key (`payload.get(...)` is
`None`). -/
structure Payload where
  nodes : Option (List NodeWithScore)
  response : Option ChatResponse
  prompt : Option String
  deriving DecidableEq, Repr

/-- A chainlit `Text` element, one per retrieved source. -/
structure Text where
  name : String
  content : String
  deriving DecidableEq, Repr

/-- The argument record of a chainlit `Message(...)` construction that the
handler sends; fields the call site does not pass are `none` / `[]`. -/
structure Message where
  author : CBEventType
  content : String
  parent_id : Option String
  indent : Option Nat
  elements : List Text
  prompt : Option String
  deriving DecidableEq, Repr

/-- An observable side effect of a handler method: installing the captured
context into the ambient slot (`context_var.set`), or sending a message. -/
inductive Effect where
  | setContext (ctx : SessionContext)
  | send (m : Message)
  deriving DecidableEq, Repr

/-- The messages sent in an effect trace, in order. -/
def sendsOf (effects : List Effect) : List Message :=
  effects.filterMap (fun e =>
    match e with
    | Effect.send m => some m
    | Effect.setContext _ => none)

/-- `DEFAULT_IGNORE` of the source: the default value of both
`event_starts_to_ignore` and `event_ends_to_ignore`. -/
def DEFAULT_IGNORE : List CBEventType :=
  [CBEventType.chunking, CBEventType.synthesize, CBEventType.embedding,
   CBEventType.node_parsing, CBEventType.query, CBEventType.tree]

/-- The handler's state: the context captured at construction, the two ignore
tuples, and the mutable `root_message` anchor field (class attribute,
initially `None`). -/
structure LlamaIndexCallbackHandler where
  context : SessionContext
  event_starts_to_ignore : List CBEventType
  event_ends_to_ignore : List CBEventType
  root_message : Option RootMessage
  deriving DecidableEq, Repr

namespace LlamaIndexCallbackHandler

/-- `__init__`: captures `context_var.get()` and stores the two ignore lists;
`root_message` starts as `None`. Called with `DEFAULT_IGNORE DEFAULT_IGNORE`
to model the default arguments. -/
def init (ctx : SessionContext)
    (event_starts_to_ignore event_ends_to_ignore : List CBEventType) :
    LlamaIndexCallbackHandler :=
  { context := ctx
    event_starts_to_ignore := event_starts_to_ignore
    event_ends_to_ignore := event_ends_to_ignore
    root_message := none }

/-- `on_event_start`: sets the ambient context to the captured one, then
unconditionally sends a placeholder message (author = event type, indent 1,
empty content) and returns `""`. Result: (new state, effect trace, return
value). -/
def on_event_start (self : LlamaIndexCallbackHandler) (event_type : CBEventType)
    (payload : Option Payload) (event_id : String) :
    LlamaIndexCallbackHandler × List Effect × String :=
  (self,
   [Effect.setContext self.context,
    Effect.send
      { author := event_type
        indent := some 1
        content := ""
        parent_id := none
        elements := []
        prompt := none }],
   "")

/-- `on_event_end`: returns immediately when `payload is None`; otherwise sets
the ambient context, computes `parent_id` from `self.root_message`, and sends
one message for a `RETRIEVE` event with a truthy (non-empty) `nodes` value and
one message for an `LLM` event. `"\, "` in the Python source is a literal
backslash-comma-space separator (`\,` is not a recognised escape). -/
def on_event_end (self : LlamaIndexCallbackHandler) (event_type : CBEventType)
    (payload : Option Payload) (event_id : String) :
    LlamaIndexCallbackHandler × List Effect :=
  match payload with
  | none => (self, [])
  | some p =>
    let parent_id : Option String := self.root_message.map (fun m => m.id)
    let retrieve_sends : List Effect :=
      if event_type = CBEventType.retrieve then
        match p.nodes with
        | some sources =>
          if sources.isEmpty then []
          else
            let elements : List Text := sources.enum.map (fun q =>
              { name := "Source " ++ toString q.1
                content := q.2.node.get_text })
            let source_refs := String.intercalate "\\, "
              (sources.enum.map (fun q => "Source " ++ toString q.1))
            let content := "Retrieved the following sources: " ++ source_refs
            [Effect.send
              { content := content
                author := event_type
                elements := elements
                parent_id := parent_id
                indent := none
                prompt := none }]
        | none => []
      else []
    let llm_sends : List Effect :=
      if event_type = CBEventType.llm then
        let content :=
          match p.response with
          | some response => response.message.content
          | none => ""
        [Effect.send
          { content := content
            author := event_type
            parent_id := parent_id
            indent := none
            elements := []
            prompt := p.prompt }]
      else []
    (self, Effect.setContext self.context :: (retrieve_sends ++ llm_sends))

/-- `start_trace`: stores `self.context.session.root_message` as the anchor. -/
def start_trace (self : LlamaIndexCallbackHandler) (trace_id : Option String) :
    LlamaIndexCallbackHandler :=
  { self with root_message := self.context.session.root_message }

/-- `end_trace`: clears the anchor unconditionally. -/
def end_trace (self : LlamaIndexCallbackHandler) (trace_id : Option String)
    (trace_map : Option (List (String × List String))) :
    LlamaIndexCallbackHandler :=
  { self with root_message := none }

end LlamaIndexCallbackHandler

/-! Concrete instances used by counterexamples and witnesses. -/

/-- A concrete pre-existing chat-root message. -/
def rootA : RootMessage := { id := "root-1" }

/-- A session context whose session has a root message. -/
def ctxWithRoot : SessionContext := { session := { root_message := some rootA } }

/-- A session context whose session has no root message. -/
def ctxNoRoot : SessionContext := { session := { root_message := none } }

/-- A handler constructed with the default ignore lists. -/
def handlerDefault : LlamaIndexCallbackHandler :=
  LlamaIndexCallbackHandler.init ctxWithRoot DEFAULT_IGNORE DEFAULT_IGNORE

/-- A handler constructed with no root message in the captured session. -/
def handlerNoRoot : LlamaIndexCallbackHandler :=
  LlamaIndexCallbackHandler.init ctxNoRoot DEFAULT_IGNORE DEFAULT_IGNORE

/-- A handler whose end-ignore list contains `LLM`. -/
def handlerIgnoreLLM : LlamaIndexCallbackHandler :=
  LlamaIndexCallbackHandler.init ctxWithRoot DEFAULT_IGNORE [CBEventType.llm]

/-- An LLM end-event payload with a response and a prompt. -/
def payloadLLM : Payload :=
  { nodes := none
    response := some { message := { content := "42" } }
    prompt := some "what is the answer" }

/-- Two retrieved records with distinct text. -/
def nodeA : NodeWithScore := { node := { text := "alpha text" } }

def nodeB : NodeWithScore := { node := { text := "beta text" } }

/-- A RETRIEVE end-event payload carrying two nodes. -/
def payloadRetrieve2 : Payload :=
  { nodes := some [nodeA, nodeB], response := none, prompt := none }

/-! Helper lemmas shared by the claim theorems. -/

open LlamaIndexCallbackHandler

/-- The message sent by the RETRIEVE branch of `on_event_end` for a non-empty
source list, as a function of the anchor used for `parent_id`. -/
def retrieveMsg (anchor : Option String) (event_type : CBEventType)
    (sources : List NodeWithScore) : Message :=
  { content := "Retrieved the following sources: " ++
      String.intercalate "\\, "
        (sources.enum.map (fun q => "Source " ++ toString q.1))
    author := event_type
    elements := sources.enum.map (fun q =>
      { name := "Source " ++ toString q.1
        content := q.2.node.get_text })
    parent_id := anchor
    indent := none
    prompt := none }

/-- The message sent by the LLM branch of `on_event_end`. -/
def llmMsg (anchor : Option String) (event_type : CBEventType) (p : Payload) :
    Message :=
  { content :=
      match p.response with
      | some response => response.message.content
      | none => ""
    author := event_type
    parent_id := anchor
    indent := none
    elements := []
    prompt := p.prompt }

theorem on_event_end_none (self : LlamaIndexCallbackHandler)
    (event_type : CBEventType) (event_id : String) :
    self.on_event_end event_type none event_id = (self, []) := rfl

/-- Characterisation of the messages `on_event_end` sends for a present
payload: at most the RETRIEVE message followed by at most the LLM message. -/
theorem on_event_end_sends_eq (self : LlamaIndexCallbackHandler)
    (event_type : CBEventType) (p : Payload) (event_id : String) :
    sendsOf (self.on_event_end event_type (some p) event_id).2 =
      (if event_type = CBEventType.retrieve then
        match p.nodes with
        | some sources =>
          if sources.isEmpty then []
          else
            [retrieveMsg (self.root_message.map (fun m => m.id)) event_type
              sources]
        | none => []
      else []) ++
      (if event_type = CBEventType.llm then
        [llmMsg (self.root_message.map (fun m => m.id)) event_type p]
      else []) := by
  by_cases hr : event_type = CBEventType.retrieve
  · subst hr
    have hl : ¬ (CBEventType.retrieve = CBEventType.llm) := by decide
    cases hn : p.nodes with
    | none => simp [on_event_end, sendsOf, hn, hl]
    | some sources =>
      cases he : sources.isEmpty <;>
        simp [on_event_end, sendsOf, retrieveMsg, hn, he, hl]
  · by_cases hl : event_type = CBEventType.llm
    · subst hl
      have hr' : ¬ (CBEventType.llm = CBEventType.retrieve) := by decide
      simp [on_event_end, sendsOf, llmMsg, hr']
    · cases hn : p.nodes <;> simp [on_event_end, sendsOf, hr, hl, hn]

/-! The claim theorems. -/

/-- Claim C1 is false on the code: `CHUNKING` is in the default start-ignore
set of `handlerDefault`, yet `on_event_start` with that kind still sends a
message — the method never consults `event_starts_to_ignore`. -/
theorem C1_counterexample :
    CBEventType.chunking ∈ handlerDefault.event_starts_to_ignore ∧
    (sendsOf (handlerDefault.on_event_start CBEventType.chunking
      none "").2.1).length = 1 := by
  decide

/-- Claim C1 (amended): `on_event_start` does not filter on the stored
start-ignore set; for every handler and every event kind — ignored or not —
it sends exactly one placeholder message (author = event kind, empty content,
indent 1, no parent). -/
theorem C1_start_always_emits (h : LlamaIndexCallbackHandler)
    (event_type : CBEventType) (payload : Option Payload) (event_id : String) :
    sendsOf (h.on_event_start event_type payload event_id).2.1 =
      [{ author := event_type
         indent := some 1
         content := ""
         parent_id := none
         elements := []
         prompt := none }] := rfl

/-- Claim C2 is false on the code: a handler constructed with
`event_ends_to_ignore = [LLM]` still sends a message when `on_event_end` is
called with an LLM event — the method never consults the end-ignore set. -/
theorem C2_counterexample :
    CBEventType.llm ∈ handlerIgnoreLLM.event_ends_to_ignore ∧
    (sendsOf (handlerIgnoreLLM.on_event_end CBEventType.llm
      (some payloadLLM) "").2).length = 1 := by
  decide

/-- Claim C2 (amended): `on_event_end` does not consult the end-ignore set;
it emits only for `RETRIEVE` and `LLM` events, so for every kind in the
configured end-ignore set other than those two — in particular every kind of
the default list — no message is sent, regardless of payload. -/
theorem C2_end_ignore_not_consulted (h : LlamaIndexCallbackHandler)
    (event_type : CBEventType) (payload : Option Payload) (event_id : String)
    (hmem : event_type ∈ h.event_ends_to_ignore)
    (hr : event_type ≠ CBEventType.retrieve)
    (hl : event_type ≠ CBEventType.llm) :
    sendsOf (h.on_event_end event_type payload event_id).2 = [] := by
  cases payload with
  | none => rfl
  | some p =>
    rw [on_event_end_sends_eq]
    simp [hr, hl]

/-- Witness for C2's amended theorem at a concrete input: the default
handler, kind `CHUNKING` (a member of the default end-ignore set), and a
non-null payload. -/
theorem C2_end_ignore_not_consulted_witness :
    sendsOf (handlerDefault.on_event_end CBEventType.chunking
      (some payloadLLM) "").2 = [] :=
  C2_end_ignore_not_consulted handlerDefault CBEventType.chunking
    (some payloadLLM) "" (by decide) (by decide) (by decide)

/-- Claim C3 is false as stated: the names in the message content are joined
by the literal separator backslash-comma-space (the Python source's `"\, "`),
so for two sources the content is
`Retrieved the following sources: Source 0\, Source 1`, not the claimed
comma-space-joined sentence. -/
theorem C3_counterexample :
    (sendsOf (handlerDefault.on_event_end CBEventType.retrieve
        (some payloadRetrieve2) "").2).map Message.content =
      ["Retrieved the following sources: Source 0\\, Source 1"] ∧
    "Retrieved the following sources: Source 0\\, Source 1" ≠
      "Retrieved the following sources: Source 0, Source 1" := by
  decide

/-- Claim C3 (amended): for an end-phase RETRIEVE event whose payload maps
"nodes" to a non-empty list of n records, `on_event_end` emits exactly one
message with author the event kind, parent the current anchor, exactly n
attachments named "Source 0" … "Source {n-1}" in record order containing the
respective records' text, and content "Retrieved the following sources: "
followed by all n names joined by the separator backslash-comma-space. -/
theorem C3_retrieve_emission (h : LlamaIndexCallbackHandler) (p : Payload)
    (event_id : String) (l : List NodeWithScore)
    (hn : p.nodes = some l) (hne : l ≠ []) :
    ∃ m : Message,
      sendsOf (h.on_event_end CBEventType.retrieve (some p) event_id).2 =
        [m] ∧
      m.author = CBEventType.retrieve ∧
      m.parent_id = h.root_message.map (fun r => r.id) ∧
      m.content = "Retrieved the following sources: " ++
        String.intercalate "\\, "
          ((List.range l.length).map (fun i => "Source " ++ toString i)) ∧
      m.elements.length = l.length ∧
      ∀ i, i < l.length →
        m.elements.getD i { name := "", content := "" } =
          { name := "Source " ++ toString i
            content := (l.getD i default).node.text } := by
  have he : l.isEmpty = false := by
    cases l with
    | nil => exact absurd rfl hne
    | cons a t => rfl
  refine ⟨retrieveMsg (h.root_message.map (fun (r : RootMessage) => r.id))
    CBEventType.retrieve l, ?_, rfl, rfl, ?_, ?_, ?_⟩
  · rw [on_event_end_sends_eq]
    simp [hn, he]
  · show "Retrieved the following sources: " ++
      String.intercalate "\\, "
        (l.enum.map (fun q => "Source " ++ toString q.1)) = _
    have : l.enum.map (fun q => "Source " ++ toString q.1) =
        (List.range l.length).map (fun i => "Source " ++ toString i) := by
      have hm : l.enum.map (fun q => "Source " ++ toString q.1) =
          (l.enum.map Prod.fst).map (fun i => "Source " ++ toString i) := by
        rw [List.map_map]
        rfl
      rw [hm, List.enum_map_fst]
    rw [this]
  · show (l.enum.map _).length = l.length
    rw [List.length_map, List.enum_length]
  · intro i hi
    show (l.enum.map _).getD i _ = _
    have hi' : i < l.enum.length := by rwa [List.enum_length]
    simp only [List.getD_eq_getElem?_getD, List.getElem?_map,
      List.getElem?_enum, List.getElem?_eq_getElem hi]
    rfl

/-- Witness for C3's amended theorem at a concrete input: the two-node
RETRIEVE payload. -/
theorem C3_retrieve_emission_witness :
    ∃ m : Message,
      sendsOf (handlerDefault.on_event_end CBEventType.retrieve
        (some payloadRetrieve2) "").2 = [m] ∧
      m.author = CBEventType.retrieve ∧
      m.parent_id = handlerDefault.root_message.map (fun r => r.id) ∧
      m.content = "Retrieved the following sources: " ++
        String.intercalate "\\, "
          ((List.range ([nodeA, nodeB] : List NodeWithScore).length).map
            (fun i => "Source " ++ toString i)) ∧
      m.elements.length = ([nodeA, nodeB] : List NodeWithScore).length ∧
      ∀ i, i < ([nodeA, nodeB] : List NodeWithScore).length →
        m.elements.getD i { name := "", content := "" } =
          { name := "Source " ++ toString i
            content := (([nodeA, nodeB] : List NodeWithScore).getD i
              default).node.text } :=
  C3_retrieve_emission handlerDefault payloadRetrieve2 "" [nodeA, nodeB]
    rfl (by decide)

/-- Claim C4 is false as stated: an `on_event_end` call with a null payload
returns before `context_var.set(self.context)`, so that invocation performs
no context installation at all (its effect trace is empty). -/
theorem C4_counterexample :
    (handlerDefault.on_event_end CBEventType.llm none "").2 = [] ∧
    Effect.setContext handlerDefault.context ∉
      (handlerDefault.on_event_end CBEventType.llm none "").2 := by
  decide

/-- Claim C4 (amended): on every `on_event_start` invocation, and on every
`on_event_end` invocation with a non-null payload, the first effect is
installing the captured context — so the installation precedes every message
emission of the invocation; an `on_event_end` invocation with a null payload
performs no effects at all, in particular no installation. -/
theorem C4_context_installed_first (h : LlamaIndexCallbackHandler)
    (event_type : CBEventType) (payload : Option Payload) (event_id : String) :
    (h.on_event_start event_type payload event_id).2.1.head? =
      some (Effect.setContext h.context) ∧
    (∀ p : Payload,
      (h.on_event_end event_type (some p) event_id).2.head? =
        some (Effect.setContext h.context)) ∧
    (h.on_event_end event_type none event_id).2 = [] :=
  ⟨rfl, fun _ => rfl, rfl⟩

/-- Claim C5: `end_trace` always clears the anchor; `start_trace` sets the
anchor to the captured session's root message, so the anchor's id equals the
root message's id when one is present and the anchor is null when none is —
regardless of the handler state reached before the call. -/
theorem C5_trace_anchor (h : LlamaIndexCallbackHandler)
    (tid tid2 : Option String)
    (tmap : Option (List (String × List String))) :
    (h.end_trace tid tmap).root_message = none ∧
    (h.start_trace tid2).root_message.map (fun r => r.id) =
      h.context.session.root_message.map (fun r => r.id) ∧
    ((h.start_trace tid2).root_message = none ↔
      h.context.session.root_message = none) :=
  ⟨rfl, rfl, Iff.rfl⟩

/-- Claim C6: for an end-phase LLM event with non-null payload,
`on_event_end` sends exactly one message whose content is the response's
message content (empty string when "response" is absent), whose prompt field
carries the payload's "prompt" value, and whose parent is the current
anchor. -/
theorem C6_llm_emission (h : LlamaIndexCallbackHandler) (p : Payload)
    (event_id : String) :
    sendsOf (h.on_event_end CBEventType.llm (some p) event_id).2 =
      [{ author := CBEventType.llm
         content := (p.response.map (fun r => r.message.content)).getD ""
         parent_id := h.root_message.map (fun r => r.id)
         indent := none
         elements := []
         prompt := p.prompt }] := by
  obtain ⟨ns, resp, pr⟩ := p
  cases resp <;> rfl

/-- Claim C7: an `on_event_end` call with a null payload, or with a kind
other than RETRIEVE and LLM, sends no message and leaves the handler state
(anchor, ignore lists, captured context) unchanged; totality of the model
reflects that no exception is raised. -/
theorem C7_no_op (h : LlamaIndexCallbackHandler) (event_type : CBEventType)
    (payload : Option Payload) (event_id : String)
    (hcase : payload = none ∨
      (event_type ≠ CBEventType.retrieve ∧ event_type ≠ CBEventType.llm)) :
    (h.on_event_end event_type payload event_id).1 = h ∧
    sendsOf (h.on_event_end event_type payload event_id).2 = [] := by
  rcases hcase with hnone | ⟨hr, hl⟩
  · subst hnone
    exact ⟨rfl, rfl⟩
  · cases payload with
    | none => exact ⟨rfl, rfl⟩
    | some p =>
      refine ⟨rfl, ?_⟩
      rw [on_event_end_sends_eq]
      simp [hr, hl]

/-- Witness for C7 at a concrete input: a TEMPLATING end event with a
non-null payload. -/
theorem C7_no_op_witness :
    (handlerDefault.on_event_end CBEventType.templating
      (some payloadLLM) "").1 = handlerDefault ∧
    sendsOf (handlerDefault.on_event_end CBEventType.templating
      (some payloadLLM) "").2 = [] :=
  C7_no_op handlerDefault CBEventType.templating (some payloadLLM) ""
    (Or.inr ⟨by decide, by decide⟩)

/-- Claim C8: every message sent by `on_event_end` has `parent_id` equal to
the anchor at emission time — the stored root message's id when a trace is
active, and null (`Option.map` over `none`) when none is. -/
theorem C8_parent_is_anchor (h : LlamaIndexCallbackHandler)
    (event_type : CBEventType) (payload : Option Payload) (event_id : String)
    (m : Message)
    (hm : m ∈ sendsOf (h.on_event_end event_type payload event_id).2) :
    m.parent_id = h.root_message.map (fun r => r.id) := by
  cases payload with
  | none => simp [on_event_end_none, sendsOf] at hm
  | some p =>
    rw [on_event_end_sends_eq] at hm
    rcases List.mem_append.1 hm with h1 | h2
    · split at h1
      · split at h1
        · split at h1
          · simp at h1
          · simp at h1
            subst h1
            rfl
        · simp at h1
      · simp at h1
    · split at h2
      · simp at h2
        subst h2
        rfl
      · simp at h2

/-- The message the default handler sends for the concrete LLM payload. -/
def msgC8 : Message :=
  { author := CBEventType.llm
    content := "42"
    parent_id := none
    indent := none
    elements := []
    prompt := some "what is the answer" }

/-- Witness for C8 at a concrete input: the message sent for an LLM end
event has the anchor (here null) as its parent. -/
theorem C8_parent_is_anchor_witness :
    msgC8 ∈ sendsOf (handlerDefault.on_event_end CBEventType.llm
      (some payloadLLM) "").2 ∧
    msgC8.parent_id = handlerDefault.root_message.map (fun r => r.id) :=
  ⟨by decide,
   C8_parent_is_anchor handlerDefault CBEventType.llm (some payloadLLM) ""
     msgC8 (by decide)⟩

/-- Claim C9: no handler operation modifies the ignore lists or the captured
context; `on_event_start` and `on_event_end` leave the whole handler state
unchanged, and `start_trace` / `end_trace` change only the anchor field. -/
theorem C9_frame (h : LlamaIndexCallbackHandler) (event_type : CBEventType)
    (payload : Option Payload) (event_id : String)
    (tid tid2 : Option String)
    (tmap : Option (List (String × List String))) :
    (h.on_event_start event_type payload event_id).1 = h ∧
    (h.on_event_end event_type payload event_id).1 = h ∧
    (h.start_trace tid).context = h.context ∧
    (h.start_trace tid).event_starts_to_ignore = h.event_starts_to_ignore ∧
    (h.start_trace tid).event_ends_to_ignore = h.event_ends_to_ignore ∧
    (h.end_trace tid2 tmap).context = h.context ∧
    (h.end_trace tid2 tmap).event_starts_to_ignore =
      h.event_starts_to_ignore ∧
    (h.end_trace tid2 tmap).event_ends_to_ignore = h.event_ends_to_ignore := by
  refine ⟨rfl, ?_, rfl, rfl, rfl, rfl, rfl, rfl⟩
  cases payload <;> rfl

/-- Claim C10: any single `on_event_end` call sends at most one message —
the RETRIEVE and LLM branches test the same event kind against different
constructors, so at most one of them runs. -/
theorem C10_at_most_one (h : LlamaIndexCallbackHandler)
    (event_type : CBEventType) (payload : Option Payload)
    (event_id : String) :
    (sendsOf (h.on_event_end event_type payload event_id).2).length ≤ 1 := by
  cases payload with
  | none => simp [on_event_end_none, sendsOf]
  | some p =>
    rw [on_event_end_sends_eq]
    by_cases hr : event_type = CBEventType.retrieve
    · subst hr
      have hl : ¬ (CBEventType.retrieve = CBEventType.llm) := by decide
      simp only [hl, if_true, if_false, ite_false, List.append_nil, if_pos rfl]
      split
      · split <;> simp
      · simp
    · simp only [hr, ite_false, if_neg hr, List.nil_append]
      split <;> simp

end Chainlit
